import Mathlib

/-
Verification development for the market_feeder process-supervision core:
a shallow embedding of the supervisor (MasterProcess), the worker runtime
(WorkerProcess) and the IPC coordination substrate (IPCManager), translated
from the C++ sources, together with theorems about the supervision logic.

Modelling conventions:
* OS pids and wall-clock times are `Int` (`pid_t` / `time_t`).
* The shared-memory process table (`ProcessInfo workers[64]` plus
  `worker_count`) is modelled as the list of its first `worker_count`
  entries; appending, shift-left removal and in-place update of the C array
  correspond exactly to the list operations used below.
* A successfully attached, non-null shared region is represented by the
  `SharedMemoryData` value itself; semaphore acquisition success is an
  explicit `lockOk` argument (the C++ functions return `false` without
  touching anything when the lock cannot be taken).
* SysV calls that can fail (`ftok`, `msgget`, `shmget`, `shmat`, `semget`,
  `semctl SETVAL`, `fork`) are modelled by explicit success oracles.
-/

set_option autoImplicit false

namespace MarketFeeder

/-- Process status enum from `types.h` (`ProcessStatus`). -/
inductive ProcessStatus where
  | STARTING
  | RUNNING
  | STOPPING
  | STOPPED
  | CRASHED
  deriving DecidableEq, Repr

/-- Message type tags routed by master and worker (`MessageType` in the
sources: heartbeat, status update, error report, statistics, shutdown,
reload; `ANY` is the receive-side wildcard). -/
inductive MessageType where
  | HEARTBEAT
  | STATUS_UPDATE
  | ERROR_REPORT
  | STATISTICS
  | SHUTDOWN
  | RELOAD
  | ANY
  deriving DecidableEq, Repr

/-- Market data categories from `types.h` (`MarketDataType`). -/
inductive MarketDataType where
  | TICK
  | KLINE
  | DEPTH
  | INDEX
  | NEWS
  deriving DecidableEq, Repr

/-- One market-data record as far as the supervision core observes it
(symbol, category and volume; the `double price` field is floating point,
unused by any buffering/flush decision, and therefore not modelled). -/
structure MarketData where
  symbol : String
  data_type : MarketDataType
  volume : Nat
  deriving DecidableEq, Repr

/-- Per-worker statistics snapshot (`ProcessStatistics`): counters plus the
start and last-update timestamps. -/
structure ProcessStatistics where
  worker_id : Nat
  start_time : Int
  messages_processed : Nat
  data_received : Nat
  data_sent : Nat
  errors : Nat
  last_update : Int
  deriving DecidableEq, Repr

/-- One entry of the shared process table (`ProcessInfo`). -/
structure ProcessInfo where
  pid : Int
  worker_id : Nat
  status : ProcessStatus
  start_time : Int
  last_heartbeat : Int
  deriving DecidableEq, Repr

/-- The shared-memory region (`SharedMemoryData`): the live prefix of the
worker table (its length is the C `worker_count`), the global statistics
snapshot, and the two control flags. -/
structure SharedMemoryData where
  workers : List ProcessInfo
  stats : ProcessStatistics
  shutdown_flag : Bool
  reload_flag : Bool
  deriving DecidableEq, Repr

/-- `constants::MAX_WORKER_PROCESSES`. -/
def MAX_WORKER_PROCESSES : Nat := 64

/-- `constants::HEARTBEAT_TIMEOUT` (seconds). -/
def HEARTBEAT_TIMEOUT : Int := 60

/-- `constants::GRACEFUL_SHUTDOWN_TIMEOUT` = the 30-second wait window of
`MasterProcess::gracefulShutdown` (`max_wait_time`). -/
def GRACEFUL_SHUTDOWN_TIMEOUT : Nat := 30

/-- The worker main loop's hardcoded `heartbeat_interval` (30 s). -/
def HEARTBEAT_INTERVAL : Int := 30

/-- The worker main loop's hardcoded `stats_interval` (60 s). -/
def STATS_INTERVAL : Int := 60

/-- Abstract byte size of one `MarketData` record standing for the C++
`sizeof(MarketData)`; the exact value is layout-specific and no verified
property depends on it. -/
def SIZEOF_MARKET_DATA : Nat := 64

/-- `IPCManager::addWorkerProcess`: under the worker-list semaphore, if the
table is below capacity, append a record with status `STARTING` and both
timestamps set to the current time, bump `worker_count` and return `true`;
otherwise return `false` leaving the region unchanged.  A failed lock
acquisition returns `false` without touching anything. -/
def addWorkerProcess (lockOk : Bool) (shm : SharedMemoryData) (pid : Int)
    (worker_id : Nat) (now : Int) : Bool × SharedMemoryData :=
  if !lockOk then (false, shm)
  else if shm.workers.length < MAX_WORKER_PROCESSES then
    (true, { shm with workers := shm.workers ++
      [{ pid := pid, worker_id := worker_id, status := ProcessStatus.STARTING,
         start_time := now, last_heartbeat := now }] })
  else (false, shm)

/-- The scan-and-shift-left loop of `IPCManager::removeWorkerProcess`:
drop the first record with the given pid. -/
def removeWorkerList (pid : Int) : List ProcessInfo → Bool × List ProcessInfo
  | [] => (false, [])
  | w :: rest =>
    if w.pid = pid then (true, rest)
    else
      let r := removeWorkerList pid rest
      (r.1, w :: r.2)

/-- `IPCManager::removeWorkerProcess`: under the lock, remove the first
table entry whose pid matches (shifting the rest left, decrementing
`worker_count`); `false` when absent or when the lock fails. -/
def removeWorkerProcess (lockOk : Bool) (shm : SharedMemoryData) (pid : Int) :
    Bool × SharedMemoryData :=
  if !lockOk then (false, shm)
  else
    let r := removeWorkerList pid shm.workers
    (r.1, { shm with workers := r.2 })

/-- The scan loop of `IPCManager::updateWorkerStatus`: set the first
matching record's `status` and stamp its `last_heartbeat` with the current
time, then break. -/
def updateWorkerList (pid : Int) (status : ProcessStatus) (now : Int) :
    List ProcessInfo → Bool × List ProcessInfo
  | [] => (false, [])
  | w :: rest =>
    if w.pid = pid then
      (true, { w with status := status, last_heartbeat := now } :: rest)
    else
      let r := updateWorkerList pid status now rest
      (r.1, w :: r.2)

/-- `IPCManager::updateWorkerStatus`: under the lock, overwrite the first
matching record's status AND its `last_heartbeat` (always together), leaving
every other record untouched. -/
def updateWorkerStatus (lockOk : Bool) (shm : SharedMemoryData) (pid : Int)
    (status : ProcessStatus) (now : Int) : Bool × SharedMemoryData :=
  if !lockOk then (false, shm)
  else
    let r := updateWorkerList pid status now shm.workers
    (r.1, { shm with workers := r.2 })

/-- `IPCManager::updateStatistics`: under the statistics semaphore, assign
the supplied snapshot over the global statistics (`shared_data_->stats =
stats`) and stamp `last_update` with the current time; returns `true`
whenever the lock was taken. -/
def updateStatistics (lockOk : Bool) (shm : SharedMemoryData)
    (stats : ProcessStatistics) (now : Int) : Bool × SharedMemoryData :=
  if !lockOk then (false, shm)
  else (true, { shm with stats := { stats with last_update := now } })

/-- `MasterProcess::handleHeartbeatMessage`: a received heartbeat is recorded
by `updateWorkerStatus(sender_pid, ProcessStatus::RUNNING)`. -/
def handleHeartbeatMessage (lockOk : Bool) (shm : SharedMemoryData)
    (sender_pid : Int) (now : Int) : Bool × SharedMemoryData :=
  updateWorkerStatus lockOk shm sender_pid ProcessStatus.RUNNING now

/-- The records selected by the liveness sweep of
`MasterProcess::monitorWorkerProcesses`: every table entry whose
`last_heartbeat` is more than `HEARTBEAT_TIMEOUT` behind the current time. -/
def timedOutWorkers (workers : List ProcessInfo) (current_time : Int) :
    List ProcessInfo :=
  workers.filter (fun w => decide (current_time - w.last_heartbeat > HEARTBEAT_TIMEOUT))

/-- The liveness sweep of `MasterProcess::monitorWorkerProcesses`: the pids
that get `SIGTERM` in one sweep over the given table snapshot. -/
def monitorWorkerProcesses (workers : List ProcessInfo) (current_time : Int) :
    List Int :=
  (timedOutWorkers workers current_time).map (fun w => w.pid)

/-- Message payload union (`IPCMessage::data`), modelled as a sum type. -/
inductive MessageData where
  | heartbeat (worker_id : Nat)
  | statusUpdate (worker_id : Nat) (status : Nat)
  | errorReport (worker_id : Nat) (error_message : String)
  | statistics (snapshot : ProcessStatistics)
  | empty
  deriving DecidableEq, Repr

/-- A control message on the SysV queue (`IPCMessage`). -/
structure IPCMessage where
  type : MessageType
  sender_pid : Int
  receiver_pid : Int
  timestamp : Int
  data : MessageData
  deriving DecidableEq, Repr

/-- The message-channel face of the IPC manager: whether `initialize`
completed, whether `msg_queue_id_` is valid, the queue's capacity in
messages, and its current content in arrival order. -/
structure IpcChannelState where
  initialized : Bool
  queueAvailable : Bool
  capacity : Nat
  queue : List IPCMessage
  deriving DecidableEq, Repr

/-- `IPCManager::sendMessage`: returns `false` when the manager is not
initialized or the queue id is invalid; `msgsnd` with `IPC_NOWAIT` fails
with `EAGAIN` (returning `false`) when the queue is full; otherwise the
message is enqueued and the call returns `true`.  Total — no path raises. -/
def sendMessage (ch : IpcChannelState) (m : IPCMessage) : Bool × IpcChannelState :=
  if !ch.initialized || !ch.queueAvailable then (false, ch)
  else if ch.capacity ≤ ch.queue.length then (false, ch)
  else (true, { ch with queue := ch.queue ++ [m] })

/-- `IPCManager::receiveMessage` with wildcard filter and `blocking=false`
(`msgrcv` with `msgtyp = 0`, `IPC_NOWAIT`): pop the first queued message, or
return nothing when the queue is empty or the manager is unavailable. -/
def receiveMessage (ch : IpcChannelState) : Option IPCMessage × IpcChannelState :=
  if !ch.initialized || !ch.queueAvailable then (none, ch)
  else
    match ch.queue with
    | [] => (none, ch)
    | m :: rest => (some m, { ch with queue := rest })

/-- Result of one `create*` bring-up call: whether it returned `true` and
whether it removed (`IPC_RMID`) a pre-existing identically-keyed resource on
the way. -/
structure CreateOutcome where
  success : Bool
  destroyedOld : Bool
  deriving DecidableEq, Repr

/-- Success oracles for the SysV calls made during substrate bring-up:
`keyOk` — `ftok` succeeds; `alreadyExists` — an identically-keyed resource
exists (so `IPC_CREAT|IPC_EXCL` fails with `EEXIST`); `getOk` — fetching the
existing resource's id succeeds; `allocOk` — the (re)creation call without
`IPC_EXCL` succeeds; `attachOk` — `shmat` succeeds; `initOk` — the
`semctl SETVAL` initialization loop succeeds. -/
structure IpcOsState where
  keyOk : Bool
  alreadyExists : Bool
  getOk : Bool
  allocOk : Bool
  attachOk : Bool
  initOk : Bool
  deriving DecidableEq, Repr

/-- `IPCManager::createMessageQueue`: try `msgget(IPC_CREAT|IPC_EXCL)`; on
`EEXIST`, fetch the existing queue's id, `IPC_RMID` it when fetched, and
retry with plain `IPC_CREAT`; fail only when `ftok` or the final `msgget`
fails. -/
def createMessageQueue (os : IpcOsState) : CreateOutcome :=
  if !os.keyOk then ⟨false, false⟩
  else if !os.alreadyExists then ⟨os.allocOk, false⟩
  else ⟨os.allocOk, os.getOk⟩

/-- `IPCManager::createSharedMemory`: same destroy-and-recreate pattern as
the queue, followed by `shmat`; fails only when `ftok`, `shmget` or `shmat`
fails. -/
def createSharedMemory (os : IpcOsState) : CreateOutcome :=
  if !os.keyOk then ⟨false, false⟩
  else if !os.alreadyExists then ⟨os.allocOk && os.attachOk, false⟩
  else ⟨os.allocOk && os.attachOk, os.getOk⟩

/-- `IPCManager::createSemaphores`: same destroy-and-recreate pattern,
followed by initializing every semaphore of the set to 1; fails only when
`ftok`, `semget` or a `semctl SETVAL` fails. -/
def createSemaphores (os : IpcOsState) : CreateOutcome :=
  if !os.keyOk then ⟨false, false⟩
  else if !os.alreadyExists then ⟨os.allocOk && os.initOk, false⟩
  else ⟨os.allocOk && os.initOk, os.getOk⟩

/-- One slot of the master's in-process bookkeeping map (`WorkerInfo`),
field-for-field as assigned in `MasterProcess::createWorkerProcess`. -/
structure WorkerInfo where
  pid : Int
  worker_id : Nat
  start_time : Int
  restart_count : Nat
  status : ProcessStatus
  deriving DecidableEq, Repr

/-- The master-process state the supervision claims touch: the `running_`
flag, the `workers_` map (`std::map<int, WorkerInfo>` as an association
list keyed by `worker_id`) and the attached shared region. -/
structure MasterState where
  running : Bool
  workers : List (Nat × WorkerInfo)
  shm : SharedMemoryData
  deriving DecidableEq, Repr

/-- `workers_[worker_id] = info` on the association list: overwrite the
first entry with that key, or insert the key when absent. -/
def assocSet (worker_id : Nat) (info : WorkerInfo) :
    List (Nat × WorkerInfo) → List (Nat × WorkerInfo)
  | [] => [(worker_id, info)]
  | e :: rest =>
    if e.1 = worker_id then (worker_id, info) :: rest
    else e :: assocSet worker_id info rest

/-- `workers_.erase(it)` for the entry with the given key. -/
def assocErase (worker_id : Nat) :
    List (Nat × WorkerInfo) → List (Nat × WorkerInfo)
  | [] => []
  | e :: rest =>
    if e.1 = worker_id then rest
    else e :: assocErase worker_id rest

/-- The `std::find_if` over `workers_` in `MasterProcess::handleDeadWorker`:
first map entry whose recorded pid equals the reaped pid. -/
def findWorkerByPid (workers : List (Nat × WorkerInfo)) (pid : Int) :
    Option (Nat × WorkerInfo) :=
  workers.find? (fun e => decide (e.2.pid = pid))

/-- `MasterProcess::createWorkerProcess`: `fork()` (`forkPid = none` models
failure); on success the parent stores a fresh `WorkerInfo` — pid, worker
id, start time, `restart_count = 0`, status `STARTING` — into
`workers_[worker_id]` and registers the pid in the shared table via
`IPCManager::addWorkerProcess`. -/
def createWorkerProcess (st : MasterState) (worker_id : Nat)
    (forkPid : Option Int) (now : Int) : Bool × MasterState :=
  match forkPid with
  | none => (false, st)
  | some pid =>
    let info : WorkerInfo :=
      { pid := pid, worker_id := worker_id, start_time := now,
        restart_count := 0, status := ProcessStatus.STARTING }
    let st1 := { st with workers := assocSet worker_id info st.workers }
    let r := addWorkerProcess true st1.shm pid worker_id now
    (true, { st1 with shm := r.2 })

/-- The per-reaped-pid body of `MasterProcess::handleDeadWorker`: look the
pid up in `workers_`; remove it from the shared table; when `running_` and
the shared shutdown flag is clear, increment the slot's `restart_count` and
respawn via `createWorkerProcess` (whose fresh record overwrites the slot);
otherwise erase the slot's record. -/
def handleDeadWorkerOne (st : MasterState) (pid : Int) (forkPid : Option Int)
    (now : Int) : MasterState :=
  match findWorkerByPid st.workers pid with
  | none => st
  | some e =>
    let st1 := { st with shm := (removeWorkerProcess true st.shm pid).2 }
    if st1.running && !st1.shm.shutdown_flag then
      let bumped := { e.2 with restart_count := e.2.restart_count + 1 }
      let st2 := { st1 with workers := assocSet e.1 bumped st1.workers }
      (createWorkerProcess st2 e.1 forkPid now).2
    else
      { st1 with workers := assocErase e.1 st1.workers }

/-- The wait loop of `MasterProcess::gracefulShutdown`, with the fuel
`GRACEFUL_SHUTDOWN_TIMEOUT - wait_time` made explicit (the C++ guard is
`!workers_.empty() && wait_time < max_wait_time`): each iteration sleeps one
second, increments `wait_time` and may reap exited children, which the
arbitrary `behavior` oracle models by rewriting the `workers_` map. -/
def shutdownWaitAux (behavior : Nat → List (Nat × WorkerInfo) → List (Nat × WorkerInfo)) :
    Nat → Nat → List (Nat × WorkerInfo) → List (Nat × WorkerInfo) × Nat
  | 0, wait_time, ws => (ws, wait_time)
  | fuel + 1, wait_time, ws =>
    if ws.isEmpty then (ws, wait_time)
    else shutdownWaitAux behavior fuel (wait_time + 1) (behavior wait_time ws)

/-- Observable outcome of `MasterProcess::gracefulShutdown`: the pids that
received `SIGTERM`, the workers still tracked when the wait ended, the
number of one-second wait iterations executed, and the pids that received
`SIGKILL`. -/
structure ShutdownResult where
  sigterms : List Int
  finalWorkers : List (Nat × WorkerInfo)
  iterations : Nat
  sigkills : List Int
  deriving DecidableEq, Repr

/-- `MasterProcess::gracefulShutdown`: `SIGTERM` every tracked worker with a
positive pid; run the bounded wait loop (at most 30 one-second iterations);
if workers remain, `SIGKILL` every remaining one with a positive pid and
reap zombies; then return. -/
def gracefulShutdown
    (behavior : Nat → List (Nat × WorkerInfo) → List (Nat × WorkerInfo))
    (workers : List (Nat × WorkerInfo)) : ShutdownResult :=
  let sigterms := (workers.filter (fun e => decide (0 < e.2.pid))).map (fun e => e.2.pid)
  let r := shutdownWaitAux behavior GRACEFUL_SHUTDOWN_TIMEOUT 0 workers
  let sigkills :=
    if r.1.isEmpty then []
    else (r.1.filter (fun e => decide (0 < e.2.pid))).map (fun e => e.2.pid)
  ⟨sigterms, r.1, r.2, sigkills⟩

/-- `static_cast<int>(status)` used when a worker reports a status update. -/
def ProcessStatus.toCode : ProcessStatus → Nat
  | .STARTING => 0
  | .RUNNING => 1
  | .STOPPING => 2
  | .STOPPED => 3
  | .CRASHED => 4

/-- The worker-process state the claims touch: the slot id, the `running_`
flag, the local member `last_heartbeat_time_`, the per-category buffer map
`data_buffers_` (a `std::map`, so keys are unique), and the worker's own
statistics. -/
structure WorkerState where
  worker_id : Nat
  running : Bool
  last_heartbeat_time : Int
  data_buffers : List (MarketDataType × List MarketData)
  statistics : ProcessStatistics
  deriving DecidableEq, Repr

/-- `data_buffers_.find(t)` giving the stored vector. -/
def lookupBuf : List (MarketDataType × List MarketData) → MarketDataType →
    Option (List MarketData)
  | [], _ => none
  | p :: rest, t => if p.1 = t then some p.2 else lookupBuf rest t

/-- In-place mutation through the found iterator: replace the vector stored
under an existing key (absent keys stay absent). -/
def setBuf (t : MarketDataType) (buf : List MarketData) :
    List (MarketDataType × List MarketData) → List (MarketDataType × List MarketData)
  | [] => []
  | p :: rest =>
    if p.1 = t then (p.1, buf) :: rest
    else p :: setBuf t buf rest

/-- `WorkerProcess::sendHeartbeat`: build a `HEARTBEAT` message carrying the
worker id, best-effort send it (the result is only logged), then set the
local member `last_heartbeat_time_` to the current time — the shared table
is not written here. -/
def sendHeartbeat (w : WorkerState) (ch : IpcChannelState) (pid ppid now : Int) :
    WorkerState × IpcChannelState :=
  let msg : IPCMessage :=
    { type := MessageType.HEARTBEAT, sender_pid := pid, receiver_pid := ppid,
      timestamp := now, data := MessageData.heartbeat w.worker_id }
  let r := sendMessage ch msg
  ({ w with last_heartbeat_time := now }, r.2)

/-- `WorkerProcess::sendStatusUpdate`: best-effort send of a status-update
message; a failed send is logged and the worker proceeds unchanged. -/
def sendStatusUpdate (w : WorkerState) (ch : IpcChannelState)
    (pid ppid now : Int) (status : ProcessStatus) : WorkerState × IpcChannelState :=
  let msg : IPCMessage :=
    { type := MessageType.STATUS_UPDATE, sender_pid := pid, receiver_pid := ppid,
      timestamp := now,
      data := MessageData.statusUpdate w.worker_id status.toCode }
  let r := sendMessage ch msg
  (w, r.2)

/-- `WorkerProcess::sendErrorReport`: best-effort send of an error report;
a failed send is logged and the worker proceeds unchanged. -/
def sendErrorReport (w : WorkerState) (ch : IpcChannelState)
    (pid ppid now : Int) (error_message : String) : WorkerState × IpcChannelState :=
  let msg : IPCMessage :=
    { type := MessageType.ERROR_REPORT, sender_pid := pid, receiver_pid := ppid,
      timestamp := now,
      data := MessageData.errorReport w.worker_id error_message }
  let r := sendMessage ch msg
  (w, r.2)

/-- `WorkerProcess::sendStatistics`: best-effort send of the worker's own
statistics snapshot; a failed send is logged and the worker proceeds
unchanged. -/
def sendStatistics (w : WorkerState) (ch : IpcChannelState)
    (pid ppid now : Int) : WorkerState × IpcChannelState :=
  let msg : IPCMessage :=
    { type := MessageType.STATISTICS, sender_pid := pid, receiver_pid := ppid,
      timestamp := now, data := MessageData.statistics w.statistics }
  let r := sendMessage ch msg
  (w, r.2)

/-- `WorkerProcess::flushDataBuffer(t)`: nothing to do when the category is
absent or empty; otherwise attempt `saveMarketDataBatch` (`saveOk` models
its result), count `data_sent` bytes on success or one error on failure,
and clear the buffer either way. -/
def flushDataBuffer (w : WorkerState) (saveOk : Bool) (t : MarketDataType) :
    WorkerState :=
  match lookupBuf w.data_buffers t with
  | none => w
  | some buf =>
    if buf.isEmpty then w
    else
      let stats :=
        if saveOk then
          { w.statistics with data_sent := w.statistics.data_sent + buf.length * SIZEOF_MARKET_DATA }
        else
          { w.statistics with errors := w.statistics.errors + 1 }
      { w with statistics := stats, data_buffers := setBuf t [] w.data_buffers }

/-- The range-for of `WorkerProcess::flushDataBuffers` over the buffer map:
flush every non-empty category in order, threading the statistics. -/
def flushBuffersList (saveOk : MarketDataType → Bool) (stats : ProcessStatistics) :
    List (MarketDataType × List MarketData) →
    ProcessStatistics × List (MarketDataType × List MarketData)
  | [] => (stats, [])
  | (t, buf) :: rest =>
    if buf.isEmpty then
      let r := flushBuffersList saveOk stats rest
      (r.1, (t, buf) :: r.2)
    else
      let stats1 :=
        if saveOk t then
          { stats with data_sent := stats.data_sent + buf.length * SIZEOF_MARKET_DATA }
        else
          { stats with errors := stats.errors + 1 }
      let r := flushBuffersList saveOk stats1 rest
      (r.1, (t, []) :: r.2)

/-- `WorkerProcess::flushDataBuffers`: flush every non-empty per-category
buffer to the sink. -/
def flushDataBuffers (w : WorkerState) (saveOk : MarketDataType → Bool) :
    WorkerState :=
  let r := flushBuffersList saveOk w.statistics w.data_buffers
  { w with statistics := r.1, data_buffers := r.2 }

/-- `WorkerProcess::onMarketData` (the SDK data callback): count the record
into the statistics; if its category has a configured buffer, append it and
— the size trigger, checked on every incoming record — flush that buffer at
once when its size has reached `config.market_data.batch_size`. -/
def onMarketData (w : WorkerState) (batch_size : Nat) (saveOk : Bool)
    (now : Int) (d : MarketData) : WorkerState :=
  let stats :=
    { w.statistics with
      messages_processed := w.statistics.messages_processed + 1,
      data_received := w.statistics.data_received + SIZEOF_MARKET_DATA,
      last_update := now }
  let w1 := { w with statistics := stats }
  match lookupBuf w1.data_buffers d.data_type with
  | none => w1
  | some buf =>
    let buf1 := buf ++ [d]
    let w2 := { w1 with data_buffers := setBuf d.data_type buf1 w1.data_buffers }
    if batch_size ≤ buf1.length then flushDataBuffer w2 saveOk d.data_type
    else w2

/-- The drain loop of `WorkerProcess::processIPCMessages`: a `SHUTDOWN`
message clears `running_`; `RELOAD` re-reads configuration and resubscribes
(collaborator state outside this model); every polled message is consumed. -/
def drainLoop (w : WorkerState) : List IPCMessage → WorkerState
  | [] => w
  | m :: rest =>
    let w1 := if m.type = MessageType.SHUTDOWN then { w with running := false } else w
    drainLoop w1 rest

/-- `WorkerProcess::processIPCMessages`: repeatedly `receiveMessage(ANY,
nonblocking)` until it returns `false`, reacting per message type.  When the
manager is unavailable the first receive fails and nothing happens. -/
def processIPCMessages (w : WorkerState) (ch : IpcChannelState) :
    WorkerState × IpcChannelState :=
  if !ch.initialized || !ch.queueAvailable then (w, ch)
  else (drainLoop w ch.queue, { ch with queue := [] })

/-- Per-tick inputs of the worker main loop that come from outside the
modelled state: the two signal flags, the SDK connection state, the
database sink's per-category success, the clock, and the worker's own and
parent pids. -/
structure TickInput where
  g_shutdown : Bool
  g_reload : Bool
  sdk_connected : Bool
  saveOk : MarketDataType → Bool
  now : Int
  pid : Int
  ppid : Int

/-- The `last_heartbeat` / `last_flush` / `last_stats` locals of
`WorkerProcess::mainLoop`. -/
structure LoopTimers where
  last_heartbeat : Int
  last_flush : Int
  last_stats : Int
  deriving DecidableEq, Repr

/-- Result of one worker main-loop iteration. -/
structure TickResult where
  w : WorkerState
  ch : IpcChannelState
  shm : SharedMemoryData
  tm : LoopTimers
  exited : Bool
  deriving DecidableEq, Repr

/-- One iteration of `WorkerProcess::mainLoop`: break on the shutdown signal
flag; handle a reload signal (configuration/SDK side effects are
collaborator state); break on the shared shutdown flag; drain IPC messages;
send a heartbeat when `now - last_heartbeat >= 30 s`; flush all buffers when
`now - last_flush >= flush_interval` — the time trigger; send statistics
when `now - last_stats >= 60 s`; reconnect the SDK when disconnected
(collaborator state).  The shared region is only ever read (the flag),
never written, by a tick. -/
def mainLoopTick (w : WorkerState) (ch : IpcChannelState) (shm : SharedMemoryData)
    (tm : LoopTimers) (flush_interval : Int) (inp : TickInput) : TickResult :=
  if inp.g_shutdown then ⟨w, ch, shm, tm, true⟩
  else if shm.shutdown_flag then ⟨w, ch, shm, tm, true⟩
  else
    let p := processIPCMessages w ch
    let h :=
      if inp.now - tm.last_heartbeat ≥ HEARTBEAT_INTERVAL then
        let s := sendHeartbeat p.1 p.2 inp.pid inp.ppid inp.now
        (s.1, s.2, { tm with last_heartbeat := inp.now })
      else (p.1, p.2, tm)
    let f :=
      if inp.now - h.2.2.last_flush ≥ flush_interval then
        (flushDataBuffers h.1 inp.saveOk, { h.2.2 with last_flush := inp.now })
      else (h.1, h.2.2)
    let s :=
      if inp.now - f.2.last_stats ≥ STATS_INTERVAL then
        let r := sendStatistics f.1 h.2.1 inp.pid inp.ppid inp.now
        (r.1, r.2, { f.2 with last_stats := inp.now })
      else (f.1, h.2.1, f.2)
    ⟨s.1, s.2.1, shm, s.2.2, false⟩

/-- C9: adding a worker to a full shared table (64 records) returns `false`
and leaves the region unchanged; a successful add appends exactly one
`STARTING` record and bumps the live count by exactly 1; the live count can
never be pushed past the capacity. -/
theorem C9_add_worker_capacity (lockOk : Bool) (shm : SharedMemoryData)
    (pid : Int) (worker_id : Nat) (now : Int) :
    (MAX_WORKER_PROCESSES ≤ shm.workers.length →
      addWorkerProcess lockOk shm pid worker_id now = (false, shm)) ∧
    (lockOk = true → shm.workers.length < MAX_WORKER_PROCESSES →
      addWorkerProcess lockOk shm pid worker_id now =
        (true, { shm with workers := shm.workers ++
          [{ pid := pid, worker_id := worker_id, status := ProcessStatus.STARTING,
             start_time := now, last_heartbeat := now }] }) ∧
      (addWorkerProcess lockOk shm pid worker_id now).2.workers.length =
        shm.workers.length + 1) ∧
    (shm.workers.length ≤ MAX_WORKER_PROCESSES →
      (addWorkerProcess lockOk shm pid worker_id now).2.workers.length ≤
        MAX_WORKER_PROCESSES) := by
  refine ⟨?_, ?_, ?_⟩
  · intro hfull
    have hnot : ¬ shm.workers.length < MAX_WORKER_PROCESSES := Nat.not_lt.mpr hfull
    cases lockOk <;> simp [addWorkerProcess, hnot]
  · intro hl hlt
    subst hl
    refine ⟨by simp [addWorkerProcess, hlt], ?_⟩
    simp [addWorkerProcess, hlt]
  · intro hle
    by_cases hlt : shm.workers.length < MAX_WORKER_PROCESSES
    · cases lockOk <;> simp [addWorkerProcess, hlt] <;> omega
    · cases lockOk <;> simp [addWorkerProcess, hlt] <;> omega

/-- C9 witness: on an empty table the add succeeds, appends the `STARTING`
record and bumps the count to 1. -/
theorem C9_witness :
    addWorkerProcess true
        { workers := [], stats := ⟨0, 0, 0, 0, 0, 0, 0⟩,
          shutdown_flag := false, reload_flag := false } 100 1 5 =
      (true, { workers := [{ pid := 100, worker_id := 1,
                             status := ProcessStatus.STARTING,
                             start_time := 5, last_heartbeat := 5 }],
               stats := ⟨0, 0, 0, 0, 0, 0, 0⟩,
               shutdown_flag := false, reload_flag := false }) :=
  ((C9_add_worker_capacity true
      { workers := [], stats := ⟨0, 0, 0, 0, 0, 0, 0⟩,
        shutdown_flag := false, reload_flag := false } 100 1 5).2.1
    rfl (by decide)).1

/-- C4 counterexample: two consecutive statistics updates where the second
snapshot carries a smaller `messages_processed` make the global aggregate
counter strictly decrease — the update overwrites, it does not merge. -/
theorem C4_counterexample :
    ((updateStatistics true
        (updateStatistics true
          { workers := [], stats := ⟨0, 0, 0, 0, 0, 0, 0⟩,
            shutdown_flag := false, reload_flag := false }
          ⟨1, 0, 5, 0, 0, 0, 0⟩ 10).2
        ⟨2, 0, 3, 0, 0, 0, 0⟩ 20).2).stats.messages_processed <
      ((updateStatistics true
          { workers := [], stats := ⟨0, 0, 0, 0, 0, 0, 0⟩,
            shutdown_flag := false, reload_flag := false }
          ⟨1, 0, 5, 0, 0, 0, 0⟩ 10).2).stats.messages_processed := by
  decide

/-- C4 amended: a substrate statistics update replaces the whole global
snapshot with the one supplied (stamping `last_update` with the current
time); it does not merge, so aggregate counters are not monotone across
updates — they follow the last writer's snapshot. -/
theorem C4_statistics_replace (lockOk : Bool) (shm : SharedMemoryData)
    (stats : ProcessStatistics) (now : Int) :
    updateStatistics lockOk shm stats now =
      if lockOk then (true, { shm with stats := { stats with last_update := now } })
      else (false, shm) := by
  cases lockOk <;> simp [updateStatistics]

/-- C3: in one liveness sweep over a table snapshot, every `RUNNING` record
whose last heartbeat lies more than `HEARTBEAT_TIMEOUT` (60 s) in the past
is selected and its pid signalled, and no record within the threshold is
selected. -/
theorem C3_liveness_sweep (workers : List ProcessInfo) (current_time : Int)
    (w : ProcessInfo) (hw : w ∈ workers) :
    (w.status = ProcessStatus.RUNNING →
      current_time - w.last_heartbeat > HEARTBEAT_TIMEOUT →
      w ∈ timedOutWorkers workers current_time ∧
      w.pid ∈ monitorWorkerProcesses workers current_time) ∧
    (current_time - w.last_heartbeat ≤ HEARTBEAT_TIMEOUT →
      w ∉ timedOutWorkers workers current_time) := by
  constructor
  · intro _ hstale
    have hmem : w ∈ timedOutWorkers workers current_time := by
      simp only [timedOutWorkers, List.mem_filter, decide_eq_true_eq]
      exact ⟨hw, hstale⟩
    exact ⟨hmem, List.mem_map_of_mem _ hmem⟩
  · intro hfresh hmem
    simp only [timedOutWorkers, List.mem_filter, decide_eq_true_eq] at hmem
    exact absurd hmem.2 (not_lt.mpr hfresh)

/-- C3 witness: a single `RUNNING` record 100 s stale at a 60 s threshold is
selected and its pid 7 is signalled. -/
theorem C3_witness :
    (⟨7, 1, ProcessStatus.RUNNING, 0, 0⟩ : ProcessInfo) ∈
      timedOutWorkers [⟨7, 1, ProcessStatus.RUNNING, 0, 0⟩] 100 ∧
    (7 : Int) ∈ monitorWorkerProcesses [⟨7, 1, ProcessStatus.RUNNING, 0, 0⟩] 100 :=
  (C3_liveness_sweep [⟨7, 1, ProcessStatus.RUNNING, 0, 0⟩] 100
      ⟨7, 1, ProcessStatus.RUNNING, 0, 0⟩ (by decide)).1 rfl (by decide)

/-- C5: when an identically-keyed resource already exists and the OS calls
cooperate, each of the three substrate create operations destroys the old
resource, recreates it and returns success; each returns `false` only when
`ftok` or an allocation/mapping/initialization call fails — never merely
because the resource existed. -/
theorem C5_idempotent_bringup (os : IpcOsState) :
    (os.alreadyExists = true → os.keyOk = true → os.getOk = true →
     os.allocOk = true → os.attachOk = true → os.initOk = true →
      createMessageQueue os = ⟨true, true⟩ ∧
      createSharedMemory os = ⟨true, true⟩ ∧
      createSemaphores os = ⟨true, true⟩) ∧
    ((createMessageQueue os).success = false →
      os.keyOk = false ∨ os.allocOk = false) ∧
    ((createSharedMemory os).success = false →
      os.keyOk = false ∨ os.allocOk = false ∨ os.attachOk = false) ∧
    ((createSemaphores os).success = false →
      os.keyOk = false ∨ os.allocOk = false ∨ os.initOk = false) := by
  obtain ⟨k, e, g, a, t, i⟩ := os
  refine ⟨?_, ?_, ?_, ?_⟩ <;>
    cases k <;> cases e <;> cases g <;> cases a <;> cases t <;> cases i <;> decide

/-- C5 witness: with an existing identically-keyed resource and cooperating
OS calls, all three creates destroy-and-recreate and succeed. -/
theorem C5_witness :
    createMessageQueue ⟨true, true, true, true, true, true⟩ = ⟨true, true⟩ ∧
    createSharedMemory ⟨true, true, true, true, true, true⟩ = ⟨true, true⟩ ∧
    createSemaphores ⟨true, true, true, true, true, true⟩ = ⟨true, true⟩ :=
  (C5_idempotent_bringup ⟨true, true, true, true, true, true⟩).1
    rfl rfl rfl rfl rfl rfl

/-- C6: the substrate send is total and non-blocking — it returns `false`
(rather than raising) when the manager is unavailable or the channel is
full — and each worker sender (heartbeat, status, error, statistics)
proceeds identically whatever the send result: its returned local state
never depends on the channel. -/
theorem C6_send_nonblocking (ch : IpcChannelState) (m : IPCMessage)
    (w : WorkerState) (pid ppid now : Int) (status : ProcessStatus)
    (err : String) :
    (ch.initialized = false ∨ ch.queueAvailable = false →
      sendMessage ch m = (false, ch)) ∧
    (ch.capacity ≤ ch.queue.length → (sendMessage ch m).1 = false) ∧
    (sendHeartbeat w ch pid ppid now).1 = { w with last_heartbeat_time := now } ∧
    (sendStatusUpdate w ch pid ppid now status).1 = w ∧
    (sendErrorReport w ch pid ppid now err).1 = w ∧
    (sendStatistics w ch pid ppid now).1 = w := by
  refine ⟨?_, ?_, rfl, rfl, rfl, rfl⟩
  · rintro (h | h) <;> simp [sendMessage, h]
  · intro hfull
    by_cases h1 : (!ch.initialized || !ch.queueAvailable) = true
    · simp [sendMessage, h1]
    · simp [sendMessage, h1, hfull]

/-- C6 witness: on a zero-capacity (full) channel the send returns `false`
and the heartbeat sender still proceeds, stamping its local time. -/
theorem C6_witness :
    (sendMessage ⟨true, true, 0, []⟩
        ⟨MessageType.HEARTBEAT, 7, 3, 100, MessageData.heartbeat 1⟩).1 = false ∧
    (sendHeartbeat ⟨1, true, 0, [], ⟨1, 0, 0, 0, 0, 0, 0⟩⟩
        ⟨true, true, 0, []⟩ 7 3 100).1 =
      ⟨1, true, 100, [], ⟨1, 0, 0, 0, 0, 0, 0⟩⟩ := by
  have h := C6_send_nonblocking ⟨true, true, 0, []⟩
      ⟨MessageType.HEARTBEAT, 7, 3, 100, MessageData.heartbeat 1⟩
      ⟨1, true, 0, [], ⟨1, 0, 0, 0, 0, 0, 0⟩⟩ 7 3 100 ProcessStatus.RUNNING ""
  exact ⟨h.2.1 (by decide), h.2.2.1⟩

/-- The update loop hits the first matching record and rewrites its status
and heartbeat stamp together, leaving every other record untouched. -/
theorem updateWorkerList_split (pid : Int) (status : ProcessStatus) (now : Int)
    (pre : List ProcessInfo) (w : ProcessInfo) (post : List ProcessInfo)
    (hw : w.pid = pid) (hpre : ∀ u ∈ pre, u.pid ≠ pid) :
    updateWorkerList pid status now (pre ++ w :: post) =
      (true, pre ++ { w with status := status, last_heartbeat := now } :: post) := by
  induction pre with
  | nil => simp [updateWorkerList, hw]
  | cons u rest ih =>
    have hu : u.pid ≠ pid := hpre u (by simp)
    have ih2 := ih (fun v hv => hpre v (by simp [hv]))
    simp [updateWorkerList, hu, ih2]

/-- C10: a status update rewrites the matching record's `status` and its
`last_heartbeat` in one step — never one without the other — keeping all
other records intact, and the heartbeat handler is exactly a status update
to `RUNNING`; so a heartbeat can change a record's status and any status
change resets the heartbeat-timeout clock. -/
theorem C10_status_heartbeat_together (shm : SharedMemoryData) (pid : Int)
    (status : ProcessStatus) (now : Int) (pre post : List ProcessInfo)
    (w : ProcessInfo) (hsplit : shm.workers = pre ++ w :: post)
    (hw : w.pid = pid) (hpre : ∀ u ∈ pre, u.pid ≠ pid) :
    updateWorkerStatus true shm pid status now =
      (true, { shm with workers :=
        pre ++ { w with status := status, last_heartbeat := now } :: post }) ∧
    (∀ sender t, handleHeartbeatMessage true shm sender t =
      updateWorkerStatus true shm sender ProcessStatus.RUNNING t) := by
  constructor
  · simp [updateWorkerStatus, hsplit,
      updateWorkerList_split pid status now pre w post hw hpre]
  · intro sender t
    rfl

/-- C10 witness: a heartbeat from pid 9 turns the second record (previously
`STARTING`, stale stamp 2) into `RUNNING` with stamp 50, and only that
record. -/
theorem C10_witness :
    updateWorkerStatus true
        { workers := [⟨5, 1, ProcessStatus.RUNNING, 0, 1⟩,
                      ⟨9, 2, ProcessStatus.STARTING, 0, 2⟩],
          stats := ⟨0, 0, 0, 0, 0, 0, 0⟩,
          shutdown_flag := false, reload_flag := false } 9
        ProcessStatus.RUNNING 50 =
      (true,
        { workers := [⟨5, 1, ProcessStatus.RUNNING, 0, 1⟩,
                      ⟨9, 2, ProcessStatus.RUNNING, 0, 50⟩],
          stats := ⟨0, 0, 0, 0, 0, 0, 0⟩,
          shutdown_flag := false, reload_flag := false }) :=
  (C10_status_heartbeat_together
      { workers := [⟨5, 1, ProcessStatus.RUNNING, 0, 1⟩,
                    ⟨9, 2, ProcessStatus.STARTING, 0, 2⟩],
        stats := ⟨0, 0, 0, 0, 0, 0, 0⟩,
        shutdown_flag := false, reload_flag := false } 9
      ProcessStatus.RUNNING 50
      [⟨5, 1, ProcessStatus.RUNNING, 0, 1⟩]
      [] ⟨9, 2, ProcessStatus.STARTING, 0, 2⟩ rfl rfl (by decide)).1

/-- C1: evaluation of the dead-worker handler at the failing input.  Slot 1
(restart count 0, pid 100) is reaped while the supervisor runs with the
shutdown flag clear and the respawn fork yields pid 101: the spec demands
`restartCount = 1` afterwards, but the handler's increment is overwritten by
the fresh record `createWorkerProcess` installs, leaving `restart_count = 0`. -/
theorem C1_restart_count_reset_eval :
    (handleDeadWorkerOne
        { running := true,
          workers := [(1, { pid := 100, worker_id := 1, start_time := 0,
                            restart_count := 0,
                            status := ProcessStatus.RUNNING })],
          shm := { workers := [{ pid := 100, worker_id := 1,
                                 status := ProcessStatus.RUNNING,
                                 start_time := 0, last_heartbeat := 0 }],
                   stats := ⟨0, 0, 0, 0, 0, 0, 0⟩,
                   shutdown_flag := false, reload_flag := false } }
        100 (some 101) 5).workers =
      [(1, { pid := 101, worker_id := 1, start_time := 5,
             restart_count := 0, status := ProcessStatus.STARTING })] := by
  decide

/-- The wait loop advances `wait_time` by at most its fuel. -/
theorem shutdownWaitAux_iterations_le
    (behavior : Nat → List (Nat × WorkerInfo) → List (Nat × WorkerInfo))
    (fuel wait_time : Nat) (ws : List (Nat × WorkerInfo)) :
    (shutdownWaitAux behavior fuel wait_time ws).2 ≤ wait_time + fuel := by
  induction fuel generalizing wait_time ws with
  | zero => simp [shutdownWaitAux]
  | succ n ih =>
    by_cases h : ws.isEmpty
    · simp [shutdownWaitAux, h]
    · have := ih (wait_time + 1) (behavior wait_time ws)
      simp only [shutdownWaitAux, h]
      simp only [Bool.false_eq_true, if_false]
      omega

/-- C2: for every worker behavior, the graceful shutdown signals every
tracked worker, runs at most `GRACEFUL_SHUTDOWN_TIMEOUT` (30) one-second
wait iterations — never waiting indefinitely — and then force-kills every
worker still tracked. -/
theorem C2_graceful_shutdown_bounded
    (behavior : Nat → List (Nat × WorkerInfo) → List (Nat × WorkerInfo))
    (workers : List (Nat × WorkerInfo)) :
    (gracefulShutdown behavior workers).iterations ≤ GRACEFUL_SHUTDOWN_TIMEOUT ∧
    (∀ e ∈ workers, 0 < e.2.pid →
      e.2.pid ∈ (gracefulShutdown behavior workers).sigterms) ∧
    (∀ e ∈ (gracefulShutdown behavior workers).finalWorkers, 0 < e.2.pid →
      e.2.pid ∈ (gracefulShutdown behavior workers).sigkills) := by
  refine ⟨?_, ?_, ?_⟩
  · have h := shutdownWaitAux_iterations_le behavior GRACEFUL_SHUTDOWN_TIMEOUT 0 workers
    simpa [gracefulShutdown] using h
  · intro e he hpid
    have hmem : e ∈ workers.filter (fun e => decide (0 < e.2.pid)) :=
      List.mem_filter.mpr ⟨he, by simpa using hpid⟩
    simpa [gracefulShutdown] using List.mem_map_of_mem (fun e => e.2.pid) hmem
  · intro e he hpid
    have hne : ¬ (shutdownWaitAux behavior GRACEFUL_SHUTDOWN_TIMEOUT 0 workers).1.isEmpty := by
      intro habs
      rw [List.isEmpty_iff] at habs
      simp [gracefulShutdown, habs] at he
    have he2 : e ∈ (shutdownWaitAux behavior GRACEFUL_SHUTDOWN_TIMEOUT 0 workers).1 := by
      simpa [gracefulShutdown] using he
    have hmem : e ∈ (shutdownWaitAux behavior GRACEFUL_SHUTDOWN_TIMEOUT 0 workers).1.filter
        (fun e => decide (0 < e.2.pid)) :=
      List.mem_filter.mpr ⟨he2, by simpa using hpid⟩
    simp only [gracefulShutdown, hne]
    simpa [hne] using List.mem_map_of_mem (fun e => e.2.pid) hmem

/-- C2 witness: a single fully wedged worker (behavior never reaps) gets
`SIGTERM`, the wait stops after the 30-iteration window, and the worker then
gets `SIGKILL`. -/
theorem C2_witness :
    (gracefulShutdown (fun _ ws => ws)
        [(1, ⟨5, 1, 0, 0, ProcessStatus.RUNNING⟩)]).iterations ≤
      GRACEFUL_SHUTDOWN_TIMEOUT ∧
    (5 : Int) ∈ (gracefulShutdown (fun _ ws => ws)
        [(1, ⟨5, 1, 0, 0, ProcessStatus.RUNNING⟩)]).sigterms ∧
    (5 : Int) ∈ (gracefulShutdown (fun _ ws => ws)
        [(1, ⟨5, 1, 0, 0, ProcessStatus.RUNNING⟩)]).sigkills := by
  obtain ⟨h1, h2, h3⟩ := C2_graceful_shutdown_bounded (fun _ ws => ws)
      [(1, ⟨5, 1, 0, 0, ProcessStatus.RUNNING⟩)]
  exact ⟨h1, h2 (1, ⟨5, 1, 0, 0, ProcessStatus.RUNNING⟩) (by decide) (by decide),
    h3 (1, ⟨5, 1, 0, 0, ProcessStatus.RUNNING⟩) (by decide) (by decide)⟩

/-- Draining the message queue only ever touches the `running_` flag. -/
theorem drainLoop_frame (q : List IPCMessage) : ∀ w : WorkerState,
    (drainLoop w q).worker_id = w.worker_id ∧
    (drainLoop w q).last_heartbeat_time = w.last_heartbeat_time ∧
    (drainLoop w q).data_buffers = w.data_buffers ∧
    (drainLoop w q).statistics = w.statistics := by
  induction q with
  | nil => intro w; simp [drainLoop]
  | cons m rest ih =>
    intro w
    by_cases h : m.type = MessageType.SHUTDOWN <;> simp [drainLoop, h, ih]

/-- The worker-side state returned by a message drain differs from the
input at most in `running_`. -/
theorem processIPCMessages_frame (w : WorkerState) (ch : IpcChannelState) :
    ((processIPCMessages w ch).1).worker_id = w.worker_id ∧
    ((processIPCMessages w ch).1).last_heartbeat_time = w.last_heartbeat_time ∧
    ((processIPCMessages w ch).1).data_buffers = w.data_buffers ∧
    ((processIPCMessages w ch).1).statistics = w.statistics := by
  by_cases h : (!ch.initialized || !ch.queueAvailable) = true
  · simp [processIPCMessages, h]
  · simp [processIPCMessages, h, drainLoop_frame]

/-- Enqueueing preserves the messages already queued. -/
theorem sendMessage_queue_mono (ch : IpcChannelState) (m x : IPCMessage)
    (hx : x ∈ ch.queue) : x ∈ (sendMessage ch m).2.queue := by
  by_cases h1 : (!ch.initialized || !ch.queueAvailable) = true
  · simpa [sendMessage, h1] using hx
  · by_cases h2 : ch.capacity ≤ ch.queue.length
    · simpa [sendMessage, h1, h2] using hx
    · simp [sendMessage, h1, h2]
      exact Or.inl hx

/-- Updating an existing buffer key is visible to the next lookup. -/
theorem lookupBuf_setBuf_self (bufs : List (MarketDataType × List MarketData))
    (t : MarketDataType) (buf v : List MarketData)
    (h : lookupBuf bufs t = some buf) :
    lookupBuf (setBuf t v bufs) t = some v := by
  induction bufs with
  | nil => simp [lookupBuf] at h
  | cons p rest ih =>
    by_cases hp : p.1 = t
    · simp [lookupBuf, setBuf, hp]
    · simp only [lookupBuf, setBuf, hp, if_false, if_neg hp] at h ⊢
      exact ih h

/-- After a full flush pass, every per-category buffer is empty. -/
theorem flushBuffersList_entries_empty (saveOk : MarketDataType → Bool)
    (bufs : List (MarketDataType × List MarketData)) :
    ∀ stats : ProcessStatistics,
    ∀ p ∈ (flushBuffersList saveOk stats bufs).2, p.2 = ([] : List MarketData) := by
  induction bufs with
  | nil => intro stats p hp; simp [flushBuffersList] at hp
  | cons q rest ih =>
    intro stats p hp
    obtain ⟨t, buf⟩ := q
    by_cases h : buf.isEmpty
    · rw [List.isEmpty_iff] at h
      subst h
      simp only [flushBuffersList, List.isEmpty_nil, if_true] at hp
      rcases List.mem_cons.mp hp with h1 | h1
      · rw [h1]
      · exact ih _ p h1
    · simp only [flushBuffersList, h, Bool.false_eq_true, if_false] at hp
      rcases List.mem_cons.mp hp with h1 | h1
      · rw [h1]
      · exact ih _ p h1

/-- The flush pass leaves every non-buffer field of the worker alone. -/
theorem flushDataBuffers_frame (w : WorkerState) (saveOk : MarketDataType → Bool) :
    (flushDataBuffers w saveOk).worker_id = w.worker_id ∧
    (flushDataBuffers w saveOk).running = w.running ∧
    (flushDataBuffers w saveOk).last_heartbeat_time = w.last_heartbeat_time :=
  ⟨rfl, rfl, rfl⟩

/-- C7 counterexample: a main-loop iteration with the heartbeat interval
elapsed (local stamp 0, clock 100).  The worker emits the heartbeat message
and stamps its local `last_heartbeat_time_`, but the shared table — whose
record for this worker still carries `last_heartbeat = 0` — is returned
bit-for-bit unchanged, contradicting the claim that the worker itself
updates its record's `lastHeartbeatAt` under the lock. -/
theorem C7_counterexample :
    ((mainLoopTick ⟨1, true, 0, [], ⟨1, 0, 0, 0, 0, 0, 0⟩⟩
        ⟨true, true, 10, []⟩
        ⟨[⟨7, 1, ProcessStatus.RUNNING, 0, 0⟩], ⟨0, 0, 0, 0, 0, 0, 0⟩, false, false⟩
        ⟨0, 100, 100⟩ 1000
        ⟨false, false, true, fun _ => true, 100, 7, 3⟩).w.last_heartbeat_time = 100) ∧
    ((mainLoopTick ⟨1, true, 0, [], ⟨1, 0, 0, 0, 0, 0, 0⟩⟩
        ⟨true, true, 10, []⟩
        ⟨[⟨7, 1, ProcessStatus.RUNNING, 0, 0⟩], ⟨0, 0, 0, 0, 0, 0, 0⟩, false, false⟩
        ⟨0, 100, 100⟩ 1000
        ⟨false, false, true, fun _ => true, 100, 7, 3⟩).ch.queue =
      [⟨MessageType.HEARTBEAT, 7, 3, 100, MessageData.heartbeat 1⟩]) ∧
    ((mainLoopTick ⟨1, true, 0, [], ⟨1, 0, 0, 0, 0, 0, 0⟩⟩
        ⟨true, true, 10, []⟩
        ⟨[⟨7, 1, ProcessStatus.RUNNING, 0, 0⟩], ⟨0, 0, 0, 0, 0, 0, 0⟩, false, false⟩
        ⟨0, 100, 100⟩ 1000
        ⟨false, false, true, fun _ => true, 100, 7, 3⟩).shm =
      ⟨[⟨7, 1, ProcessStatus.RUNNING, 0, 0⟩], ⟨0, 0, 0, 0, 0, 0, 0⟩, false, false⟩) ∧
    ((⟨7, 1, ProcessStatus.RUNNING, 0, 0⟩ : ProcessInfo).last_heartbeat ≠ 100) := by
  refine ⟨by decide, by decide, by decide, by decide⟩

/-- C7 amended: in every main-loop iteration that does not break out and in
which the heartbeat interval (30 s) has elapsed, the worker emits a
`Heartbeat` message on the channel (when the channel is usable) and records
the emission time in its local `last_heartbeat_time_` member; the shared
table is not written by the worker's iteration — its record is refreshed by
the supervisor's heartbeat handler instead. -/
theorem C7_heartbeat_local_update (w : WorkerState) (ch : IpcChannelState)
    (shm : SharedMemoryData) (tm : LoopTimers) (flush_interval : Int)
    (inp : TickInput)
    (hsig : inp.g_shutdown = false) (hflag : shm.shutdown_flag = false)
    (hdue : inp.now - tm.last_heartbeat ≥ HEARTBEAT_INTERVAL)
    (hinit : ch.initialized = true) (havail : ch.queueAvailable = true)
    (hcap : 0 < ch.capacity) :
    (mainLoopTick w ch shm tm flush_interval inp).w.last_heartbeat_time = inp.now ∧
    (mainLoopTick w ch shm tm flush_interval inp).tm.last_heartbeat = inp.now ∧
    (⟨MessageType.HEARTBEAT, inp.pid, inp.ppid, inp.now,
       MessageData.heartbeat w.worker_id⟩ : IPCMessage) ∈
      (mainLoopTick w ch shm tm flush_interval inp).ch.queue ∧
    (mainLoopTick w ch shm tm flush_interval inp).shm = shm := by
  have hio : (!ch.initialized || !ch.queueAvailable) = false := by
    simp [hinit, havail]
  have hwid := (drainLoop_frame ch.queue w).1
  have hsend : sendMessage { ch with queue := [] }
      ⟨MessageType.HEARTBEAT, inp.pid, inp.ppid, inp.now,
        MessageData.heartbeat w.worker_id⟩ =
      (true, { ch with queue := [⟨MessageType.HEARTBEAT, inp.pid, inp.ppid, inp.now,
        MessageData.heartbeat w.worker_id⟩] }) := by
    have hlen : ¬ ch.capacity = 0 := by omega
    simp [sendMessage, hio, hlen]
  refine ⟨?_, ?_, ?_, ?_⟩
  · by_cases hfl : inp.now - tm.last_flush ≥ flush_interval <;>
      by_cases hst : inp.now - tm.last_stats ≥ STATS_INTERVAL <;>
        simp [mainLoopTick, hsig, hflag, hdue, hfl, hst, processIPCMessages, hio,
          sendHeartbeat, sendStatistics, flushDataBuffers]
  · by_cases hfl : inp.now - tm.last_flush ≥ flush_interval <;>
      by_cases hst : inp.now - tm.last_stats ≥ STATS_INTERVAL <;>
        simp [mainLoopTick, hsig, hflag, hdue, hfl, hst, processIPCMessages, hio,
          sendHeartbeat, sendStatistics, flushDataBuffers]
  · by_cases hfl : inp.now - tm.last_flush ≥ flush_interval <;>
      by_cases hst : inp.now - tm.last_stats ≥ STATS_INTERVAL <;>
        simp [mainLoopTick, hsig, hflag, hdue, hfl, hst, processIPCMessages, hio,
          sendHeartbeat, sendStatistics, flushDataBuffers, hwid, hsend] <;>
      exact sendMessage_queue_mono _ _ _ (by simp)
  · by_cases hfl : inp.now - tm.last_flush ≥ flush_interval <;>
      by_cases hst : inp.now - tm.last_stats ≥ STATS_INTERVAL <;>
        simp [mainLoopTick, hsig, hflag, hdue, hfl, hst, processIPCMessages, hio,
          sendHeartbeat, sendStatistics, flushDataBuffers]

/-- C7 amended-claim witness: a due heartbeat (local stamp 0, clock 100) on
a usable channel is emitted, the local stamp becomes 100, and the shared
region is untouched. -/
theorem C7_witness :
    (mainLoopTick ⟨1, true, 0, [], ⟨1, 0, 0, 0, 0, 0, 0⟩⟩ ⟨true, true, 10, []⟩
        ⟨[], ⟨0, 0, 0, 0, 0, 0, 0⟩, false, false⟩ ⟨0, 100, 100⟩ 1000
        ⟨false, false, true, fun _ => true, 100, 7, 3⟩).w.last_heartbeat_time = 100 ∧
    (mainLoopTick ⟨1, true, 0, [], ⟨1, 0, 0, 0, 0, 0, 0⟩⟩ ⟨true, true, 10, []⟩
        ⟨[], ⟨0, 0, 0, 0, 0, 0, 0⟩, false, false⟩ ⟨0, 100, 100⟩ 1000
        ⟨false, false, true, fun _ => true, 100, 7, 3⟩).tm.last_heartbeat = 100 ∧
    (⟨MessageType.HEARTBEAT, 7, 3, 100, MessageData.heartbeat 1⟩ : IPCMessage) ∈
      (mainLoopTick ⟨1, true, 0, [], ⟨1, 0, 0, 0, 0, 0, 0⟩⟩ ⟨true, true, 10, []⟩
        ⟨[], ⟨0, 0, 0, 0, 0, 0, 0⟩, false, false⟩ ⟨0, 100, 100⟩ 1000
        ⟨false, false, true, fun _ => true, 100, 7, 3⟩).ch.queue ∧
    (mainLoopTick ⟨1, true, 0, [], ⟨1, 0, 0, 0, 0, 0, 0⟩⟩ ⟨true, true, 10, []⟩
        ⟨[], ⟨0, 0, 0, 0, 0, 0, 0⟩, false, false⟩ ⟨0, 100, 100⟩ 1000
        ⟨false, false, true, fun _ => true, 100, 7, 3⟩).shm =
      ⟨[], ⟨0, 0, 0, 0, 0, 0, 0⟩, false, false⟩ :=
  C7_heartbeat_local_update ⟨1, true, 0, [], ⟨1, 0, 0, 0, 0, 0, 0⟩⟩
    ⟨true, true, 10, []⟩ ⟨[], ⟨0, 0, 0, 0, 0, 0, 0⟩, false, false⟩
    ⟨0, 100, 100⟩ 1000 ⟨false, false, true, fun _ => true, 100, 7, 3⟩
    rfl rfl (by decide) rfl rfl (by decide)

/-- C8: the buffering policy is a size/time dual trigger.  Size: on each
incoming record whose category is buffered, the buffer is flushed at once
exactly when its new size reaches the batch size, and only appended to
otherwise.  Time: a main-loop iteration that does not break out flushes
every buffer exactly when the flush interval has elapsed, and leaves every
buffer untouched otherwise. -/
theorem C8_dual_trigger (w : WorkerState) (batch_size : Nat) (saveOk1 : Bool)
    (now : Int) (d : MarketData) (buf : List MarketData)
    (hbuf : lookupBuf w.data_buffers d.data_type = some buf)
    (ch : IpcChannelState) (shm : SharedMemoryData) (tm : LoopTimers)
    (flush_interval : Int) (inp : TickInput)
    (hsig : inp.g_shutdown = false) (hflag : shm.shutdown_flag = false) :
    (batch_size ≤ buf.length + 1 →
      lookupBuf (onMarketData w batch_size saveOk1 now d).data_buffers d.data_type =
        some []) ∧
    (buf.length + 1 < batch_size →
      lookupBuf (onMarketData w batch_size saveOk1 now d).data_buffers d.data_type =
        some (buf ++ [d])) ∧
    (inp.now - tm.last_flush ≥ flush_interval →
      ∀ p ∈ (mainLoopTick w ch shm tm flush_interval inp).w.data_buffers,
        p.2 = ([] : List MarketData)) ∧
    (¬ inp.now - tm.last_flush ≥ flush_interval →
      (mainLoopTick w ch shm tm flush_interval inp).w.data_buffers =
        w.data_buffers) := by
  have h2 : lookupBuf (setBuf d.data_type (buf ++ [d]) w.data_buffers) d.data_type =
      some (buf ++ [d]) := lookupBuf_setBuf_self _ _ _ _ hbuf
  refine ⟨?_, ?_, ?_, ?_⟩
  · intro hsz
    have hne : (buf ++ [d]).isEmpty = false := by simp
    have h3 : lookupBuf (setBuf d.data_type ([] : List MarketData)
        (setBuf d.data_type (buf ++ [d]) w.data_buffers)) d.data_type = some [] :=
      lookupBuf_setBuf_self _ _ _ _ h2
    simp [onMarketData, hbuf, hsz, flushDataBuffer, h2, h3, hne]
  · intro hlt
    have hlen : ¬ batch_size ≤ buf.length + 1 := by omega
    simp [onMarketData, hbuf, hlen, h2]
  · intro hfl p hp
    by_cases hhb : inp.now - tm.last_heartbeat ≥ HEARTBEAT_INTERVAL <;>
      by_cases hst : inp.now - tm.last_stats ≥ STATS_INTERVAL <;>
        simp [mainLoopTick, hsig, hflag, hhb, hfl, hst,
          sendHeartbeat, sendStatistics, flushDataBuffers] at hp <;>
        exact flushBuffersList_entries_empty _ _ _ p hp
  · intro hfl
    have hframe := (processIPCMessages_frame w ch).2.2.1
    by_cases hhb : inp.now - tm.last_heartbeat ≥ HEARTBEAT_INTERVAL <;>
      by_cases hst : inp.now - tm.last_stats ≥ STATS_INTERVAL <;>
        simp [mainLoopTick, hsig, hflag, hhb, hfl, hst,
          sendHeartbeat, sendStatistics, hframe]

/-- C8 witness: with batch size 1, an incoming TICK record immediately
flushes its buffer; and a tick whose flush interval (50) has elapsed
(clock 100, last flush 0) leaves the TICK buffer empty. -/
theorem C8_witness :
    lookupBuf (onMarketData ⟨1, true, 0, [(MarketDataType.TICK, [])], ⟨1, 0, 0, 0, 0, 0, 0⟩⟩
        1 true 100 ⟨"600000", MarketDataType.TICK, 10⟩).data_buffers
      MarketDataType.TICK = some [] ∧
    ((MarketDataType.TICK, ([] : List MarketData)) ∈
        (mainLoopTick ⟨1, true, 0, [(MarketDataType.TICK, [⟨"600000", MarketDataType.TICK, 10⟩])], ⟨1, 0, 0, 0, 0, 0, 0⟩⟩
          ⟨true, true, 10, []⟩ ⟨[], ⟨0, 0, 0, 0, 0, 0, 0⟩, false, false⟩
          ⟨100, 0, 100⟩ 50
          ⟨false, false, true, fun _ => true, 100, 7, 3⟩).w.data_buffers →
      ([] : List MarketData) = []) := by
  constructor
  · exact (C8_dual_trigger ⟨1, true, 0, [(MarketDataType.TICK, [])], ⟨1, 0, 0, 0, 0, 0, 0⟩⟩
      1 true 100 ⟨"600000", MarketDataType.TICK, 10⟩ [] rfl
      ⟨true, true, 10, []⟩ ⟨[], ⟨0, 0, 0, 0, 0, 0, 0⟩, false, false⟩
      ⟨100, 0, 100⟩ 50 ⟨false, false, true, fun _ => true, 100, 7, 3⟩
      rfl rfl).1 (by decide)
  · intro hmem
    exact (C8_dual_trigger ⟨1, true, 0, [(MarketDataType.TICK, [⟨"600000", MarketDataType.TICK, 10⟩])], ⟨1, 0, 0, 0, 0, 0, 0⟩⟩
      1 true 100 ⟨"600000", MarketDataType.TICK, 10⟩ [⟨"600000", MarketDataType.TICK, 10⟩] rfl
      ⟨true, true, 10, []⟩ ⟨[], ⟨0, 0, 0, 0, 0, 0, 0⟩, false, false⟩
      ⟨100, 0, 100⟩ 50 ⟨false, false, true, fun _ => true, 100, 7, 3⟩
      rfl rfl).2.2.1 (by decide) (MarketDataType.TICK, ([] : List MarketData)) hmem

end MarketFeeder
